import Mathlib

/-! Typed accessors over a SHIELD endpoint (`plugin/endpoint.go`).

A shallow embedding of the Go file `plugin/endpoint.go`: the endpoint store
`ShieldEndpoint` (a `map[string]interface{}` filled by `encoding/json`), the
constructor `getEndpoint`, the five typed accessors and the four accessors with
a default.

Conventions of the embedding.

* A Go function returning `(T, error)` becomes a function into `Outcome T`:
  `(v, nil)` is `Outcome.ok v`, `(zero, err)` with `err != nil` is
  `Outcome.error err` (the zero value that accompanies a non-nil error is not
  kept), and a run-time panic is `Outcome.panic`.
* The values held by a store are the values `encoding/json` puts into an
  `interface{}`: `nil`, `bool`, `float64`, `string`, `[]interface{}` and
  `map[string]interface{}`.
* A `float64` is carried as its IEEE-754 bit pattern; the code moves numbers
  around and never computes with them.
* A Go map is an association list read by first match; the nil map reads as the
  empty map.
* The decoder `json.Unmarshal` belongs to the Go library and is a parameter of
  `getEndpoint`.
-/

namespace Plugin

/-! ## Data model -/

/-- A Go `float64`, as its 64-bit IEEE-754 pattern. -/
structure Float64 where
  bits : Fin (2 ^ 64)
  deriving DecidableEq, Repr

/-- The `float64` zero value `0`. -/
def Float64.zero : Float64 := ⟨⟨0, by decide⟩⟩

/-- The `float64` value `1`. -/
def Float64.one : Float64 := ⟨⟨0x3FF0000000000000, by decide⟩⟩

/-- The `float64` value `3`. -/
def Float64.three : Float64 := ⟨⟨0x4008000000000000, by decide⟩⟩

/-- The `float64` value `7`. -/
def Float64.seven : Float64 := ⟨⟨0x401C000000000000, by decide⟩⟩

/-- A dynamically typed value: what an `interface{}` holds after
`json.Unmarshal` into a `map[string]interface{}`. -/
inductive Value where
  /-- The nil interface (JSON `null`). -/
  | null : Value
  /-- A Go `bool`. -/
  | bool (b : Bool) : Value
  /-- A Go `float64` (every JSON number). -/
  | num (f : Float64) : Value
  /-- A Go `string`. -/
  | str (s : String) : Value
  /-- A Go `[]interface{}`. -/
  | arr (elems : List Value) : Value
  /-- A Go `map[string]interface{}`. -/
  | obj (entries : List (String × Value)) : Value

/-- The store: `type ShieldEndpoint map[string]interface{}`. -/
abbrev ShieldEndpoint := List (String × Value)

/-- The comma-ok map read `v, ok := endpoint[key]`: `some v` when `ok`. -/
def ShieldEndpoint.lookup : ShieldEndpoint → String → Option Value
  | [], _ => none
  | (k, v) :: rest, key => if k = key then some v else ShieldEndpoint.lookup rest key

/-- The plain map read `endpoint[key]`: the zero value (nil) when absent. -/
def ShieldEndpoint.index (endpoint : ShieldEndpoint) (key : String) : Value :=
  match ShieldEndpoint.lookup endpoint key with
  | some v => v
  | none => Value.null

/-- Modelled from the spec: the error values of the package. `endpoint.go` builds
them but their type declarations (`JSONError`, `EndpointMissingRequiredDataError`,
`EndpointDataTypeMismatchError`) are in another file of the package; the spec
calls them `MalformedInputError`, `MissingKeyError{key}` and
`TypeMismatchError{key, expectedKind}`. `errorString` is the value of
`fmt.Errorf` (the spec's `MissingInputError`). -/
inductive Error where
  | errorString (msg : String) : Error
  | JSONError (Err : String) : Error
  | EndpointMissingRequiredDataError (Key : String) : Error
  | EndpointDataTypeMismatchError (Key : String) (DesiredType : String) : Error
  deriving DecidableEq, Repr

/-- The type assertion `_, ok := err.(EndpointMissingRequiredDataError)`. -/
def Error.isMissingRequiredData : Error → Bool
  | Error.EndpointMissingRequiredDataError _ => true
  | _ => false

/-- The two run-time panics the file can raise. -/
inductive Panic where
  /-- A method call on the nil `reflect.Type`. -/
  | nilDereference : Panic
  /-- A failed unchecked type assertion `x.(T)`. -/
  | interfaceConversion : Panic
  deriving DecidableEq, Repr

/-- What a call of a Go function returning `(T, error)` does. -/
inductive Outcome (α : Type) where
  /-- Returns `(v, nil)`. -/
  | ok (v : α) : Outcome α
  /-- Returns a non-nil error. -/
  | error (err : Error) : Outcome α
  /-- Does not return: the goroutine panics. -/
  | panic (p : Panic) : Outcome α
  deriving DecidableEq, Repr

/-! ## `reflect` -/

/-- The dynamic types of the values of a store. -/
inductive RType where
  | string : RType
  | float64 : RType
  | bool : RType
  | sliceOfInterface : RType
  | mapStringInterface : RType
  deriving DecidableEq, Repr

/-- The kinds of `reflect.Kind` that the file compares with. -/
inductive Kind where
  | Bool : Kind
  | Float64 : Kind
  | Map : Kind
  | Slice : Kind
  | String : Kind
  deriving DecidableEq, Repr

/-- The call `reflect.TypeOf(i)`: the nil `Type` (here `none`) for a nil interface. -/
def reflectTypeOf : Value → Option RType
  | Value.null => none
  | Value.bool _ => some RType.bool
  | Value.num _ => some RType.float64
  | Value.str _ => some RType.string
  | Value.arr _ => some RType.sliceOfInterface
  | Value.obj _ => some RType.mapStringInterface

/-- The method `Type.Kind()`. -/
def RType.Kind : RType → Kind
  | RType.string => Kind.String
  | RType.float64 => Kind.Float64
  | RType.bool => Kind.Bool
  | RType.sliceOfInterface => Kind.Slice
  | RType.mapStringInterface => Kind.Map

/-- The expression `reflect.TypeOf(i).Kind()`: the method call on the nil `Type`
panics. -/
def kindOf (i : Value) : Outcome Kind :=
  match reflectTypeOf i with
  | none => Outcome.panic Panic.nilDereference
  | some t => Outcome.ok (RType.Kind t)

/-! ## Unchecked type assertions -/

/-- The assertion `i.(string)`. -/
def assertString : Value → Outcome String
  | Value.str s => Outcome.ok s
  | _ => Outcome.panic Panic.interfaceConversion

/-- The assertion `i.(float64)`. -/
def assertFloat64 : Value → Outcome Float64
  | Value.num f => Outcome.ok f
  | _ => Outcome.panic Panic.interfaceConversion

/-- The assertion `i.(bool)`. -/
def assertBool : Value → Outcome Bool
  | Value.bool b => Outcome.ok b
  | _ => Outcome.panic Panic.interfaceConversion

/-- The assertion `i.([]interface{})`. -/
def assertSlice : Value → Outcome (List Value)
  | Value.arr a => Outcome.ok a
  | _ => Outcome.panic Panic.interfaceConversion

/-- The assertion `i.(map[string]interface{})`. -/
def assertMap : Value → Outcome (List (String × Value))
  | Value.obj m => Outcome.ok m
  | _ => Outcome.panic Panic.interfaceConversion

/-! ## Construction -/

/-- The function `getEndpoint`. The decoder `json.Unmarshal` is a parameter:
`unmarshal j m` is the content of the map after `json.Unmarshal([]byte(j), &m)`
together with the message of the error it returned, if any. -/
def getEndpoint (unmarshal : String → ShieldEndpoint → ShieldEndpoint × Option String)
    (j : String) : Outcome ShieldEndpoint :=
  if j = "" then
    Outcome.error (Error.errorString "Missing required --endpoint flag")
  else
    let endpoint : ShieldEndpoint := []
    match unmarshal j endpoint with
    | (_, some msg) =>
      Outcome.error (Error.JSONError ("Error trying parse --endpoint value as JSON: " ++ msg))
    | (endpoint, none) => Outcome.ok endpoint

/-! ## Typed accessors -/

/-- The method `StringValue`. -/
def ShieldEndpoint.StringValue (endpoint : ShieldEndpoint) (key : String) : Outcome String :=
  match ShieldEndpoint.lookup endpoint key with
  | none => Outcome.error (Error.EndpointMissingRequiredDataError key)
  | some _ =>
    match kindOf (ShieldEndpoint.index endpoint key) with
    | Outcome.panic p => Outcome.panic p
    | Outcome.error e => Outcome.error e
    | Outcome.ok k =>
      if k ≠ Kind.String then
        Outcome.error (Error.EndpointDataTypeMismatchError key "string")
      else assertString (ShieldEndpoint.index endpoint key)

/-- The method `StringValueDefault`. -/
def ShieldEndpoint.StringValueDefault (endpoint : ShieldEndpoint) (key : String) (d : String) :
    Outcome String :=
  match ShieldEndpoint.StringValue endpoint key with
  | Outcome.panic p => Outcome.panic p
  | Outcome.ok s => Outcome.ok s
  | Outcome.error err =>
    if Error.isMissingRequiredData err then Outcome.ok d else Outcome.error err

/-- The method `FloatValue`. -/
def ShieldEndpoint.FloatValue (endpoint : ShieldEndpoint) (key : String) : Outcome Float64 :=
  match ShieldEndpoint.lookup endpoint key with
  | none => Outcome.error (Error.EndpointMissingRequiredDataError key)
  | some _ =>
    match kindOf (ShieldEndpoint.index endpoint key) with
    | Outcome.panic p => Outcome.panic p
    | Outcome.error e => Outcome.error e
    | Outcome.ok k =>
      if k ≠ Kind.Float64 then
        Outcome.error (Error.EndpointDataTypeMismatchError key "numeric")
      else assertFloat64 (ShieldEndpoint.index endpoint key)

/-- The method `FloatValueDefault`. -/
def ShieldEndpoint.FloatValueDefault (endpoint : ShieldEndpoint) (key : String) (d : Float64) :
    Outcome Float64 :=
  match ShieldEndpoint.FloatValue endpoint key with
  | Outcome.panic p => Outcome.panic p
  | Outcome.ok f => Outcome.ok f
  | Outcome.error err =>
    if Error.isMissingRequiredData err then Outcome.ok d else Outcome.error err

/-- The method `BooleanValue`. -/
def ShieldEndpoint.BooleanValue (endpoint : ShieldEndpoint) (key : String) : Outcome Bool :=
  match ShieldEndpoint.lookup endpoint key with
  | none => Outcome.error (Error.EndpointMissingRequiredDataError key)
  | some _ =>
    match kindOf (ShieldEndpoint.index endpoint key) with
    | Outcome.panic p => Outcome.panic p
    | Outcome.error e => Outcome.error e
    | Outcome.ok k =>
      if k ≠ Kind.Bool then
        Outcome.error (Error.EndpointDataTypeMismatchError key "boolean")
      else assertBool (ShieldEndpoint.index endpoint key)

/-- The method `BooleanValueDefault`. -/
def ShieldEndpoint.BooleanValueDefault (endpoint : ShieldEndpoint) (key : String) (d : Bool) :
    Outcome Bool :=
  match ShieldEndpoint.BooleanValue endpoint key with
  | Outcome.panic p => Outcome.panic p
  | Outcome.ok tf => Outcome.ok tf
  | Outcome.error err =>
    if Error.isMissingRequiredData err then Outcome.ok d else Outcome.error err

/-- The method `ArrayValue`. -/
def ShieldEndpoint.ArrayValue (endpoint : ShieldEndpoint) (key : String) :
    Outcome (List Value) :=
  match ShieldEndpoint.lookup endpoint key with
  | none => Outcome.error (Error.EndpointMissingRequiredDataError key)
  | some _ =>
    match kindOf (ShieldEndpoint.index endpoint key) with
    | Outcome.panic p => Outcome.panic p
    | Outcome.error e => Outcome.error e
    | Outcome.ok k =>
      if k ≠ Kind.Slice then
        Outcome.error (Error.EndpointDataTypeMismatchError key "array")
      else assertSlice (ShieldEndpoint.index endpoint key)

/-- The loop of `ArrayValueDefault`:
`for _, elem := range a { coerced = append(coerced, elem.(string)) }`,
from the elements still to visit and the slice `coerced` built so far. -/
def coerceLoop : List Value → List String → Outcome (List String)
  | [], coerced => Outcome.ok coerced
  | elem :: rest, coerced =>
    match assertString elem with
    | Outcome.ok s => coerceLoop rest (coerced ++ [s])
    | Outcome.error e => Outcome.error e
    | Outcome.panic p => Outcome.panic p

/-- The method `ArrayValueDefault`. -/
def ShieldEndpoint.ArrayValueDefault (endpoint : ShieldEndpoint) (key : String)
    (d : List String) : Outcome (List String) :=
  match ShieldEndpoint.ArrayValue endpoint key with
  | Outcome.panic p => Outcome.panic p
  | Outcome.ok a => coerceLoop a []
  | Outcome.error err =>
    if Error.isMissingRequiredData err then Outcome.ok d else Outcome.error err

/-- The method `MapValue`. -/
def ShieldEndpoint.MapValue (endpoint : ShieldEndpoint) (key : String) :
    Outcome (List (String × Value)) :=
  match ShieldEndpoint.lookup endpoint key with
  | none => Outcome.error (Error.EndpointMissingRequiredDataError key)
  | some _ =>
    match kindOf (ShieldEndpoint.index endpoint key) with
    | Outcome.panic p => Outcome.panic p
    | Outcome.error e => Outcome.error e
    | Outcome.ok k =>
      if k ≠ Kind.Map then
        Outcome.error (Error.EndpointDataTypeMismatchError key "map")
      else assertMap (ShieldEndpoint.index endpoint key)

/-! ## Stores of the specification's examples -/

/-- The store decoded from the JSON object with the one member `"count": 3`. -/
def countStore : ShieldEndpoint := [("count", Value.num Float64.three)]

/-- The store decoded from the JSON object with the one member `"name": "x"`. -/
def nameStore : ShieldEndpoint := [("name", Value.str "x")]

/-- The store decoded from the JSON object with the one member `"tags": ["a","b"]`. -/
def tagsStore : ShieldEndpoint := [("tags", Value.arr [Value.str "a", Value.str "b"])]

/-- The store decoded from the JSON object with the one member
`"opts"`, an object with `"a": 1` and `"b": true`. -/
def optsStore : ShieldEndpoint :=
  [("opts", Value.obj [("a", Value.num Float64.one), ("b", Value.bool true)])]

/-- The store decoded from the JSON object with the one member `"k": null`. -/
def nullStore : ShieldEndpoint := [("k", Value.null)]

/-! ## The accessors as state transformers

A Go map is a reference: a method with the receiver `endpoint ShieldEndpoint`
works on the caller's map and could write to it. Here each method is a function
from the store before the call to its outcome and the store after the call, one
step per statement of the source. -/

/-- A call on a store: the outcome and the store after the call. -/
abbrev Exec (α : Type) := ShieldEndpoint → Outcome α × ShieldEndpoint

/-- The statement `_, ok := endpoint[key]`: the flag `ok` and the store after. -/
def mapReadOk (key : String) (endpoint : ShieldEndpoint) : Bool × ShieldEndpoint :=
  ((ShieldEndpoint.lookup endpoint key).isSome, endpoint)

/-- The expression `endpoint[key]`: the value read and the store after. -/
def mapRead (key : String) (endpoint : ShieldEndpoint) : Value × ShieldEndpoint :=
  (ShieldEndpoint.index endpoint key, endpoint)

/-- The method `StringValue`, with the store after the call. -/
def Stateful.StringValue (key : String) : Exec String := fun endpoint =>
  match mapReadOk key endpoint with
  | (false, endpoint) => (Outcome.error (Error.EndpointMissingRequiredDataError key), endpoint)
  | (true, endpoint) =>
    match mapRead key endpoint with
    | (i, endpoint) =>
      match kindOf i with
      | Outcome.panic p => (Outcome.panic p, endpoint)
      | Outcome.error e => (Outcome.error e, endpoint)
      | Outcome.ok k =>
        if k ≠ Kind.String then
          (Outcome.error (Error.EndpointDataTypeMismatchError key "string"), endpoint)
        else
          match mapRead key endpoint with
          | (i, endpoint) => (assertString i, endpoint)

/-- The method `StringValueDefault`, with the store after the call. -/
def Stateful.StringValueDefault (key : String) (d : String) : Exec String := fun endpoint =>
  match Stateful.StringValue key endpoint with
  | (Outcome.panic p, endpoint) => (Outcome.panic p, endpoint)
  | (Outcome.ok s, endpoint) => (Outcome.ok s, endpoint)
  | (Outcome.error err, endpoint) =>
    if Error.isMissingRequiredData err then (Outcome.ok d, endpoint)
    else (Outcome.error err, endpoint)

/-- The method `FloatValue`, with the store after the call. -/
def Stateful.FloatValue (key : String) : Exec Float64 := fun endpoint =>
  match mapReadOk key endpoint with
  | (false, endpoint) => (Outcome.error (Error.EndpointMissingRequiredDataError key), endpoint)
  | (true, endpoint) =>
    match mapRead key endpoint with
    | (i, endpoint) =>
      match kindOf i with
      | Outcome.panic p => (Outcome.panic p, endpoint)
      | Outcome.error e => (Outcome.error e, endpoint)
      | Outcome.ok k =>
        if k ≠ Kind.Float64 then
          (Outcome.error (Error.EndpointDataTypeMismatchError key "numeric"), endpoint)
        else
          match mapRead key endpoint with
          | (i, endpoint) => (assertFloat64 i, endpoint)

/-- The method `FloatValueDefault`, with the store after the call. -/
def Stateful.FloatValueDefault (key : String) (d : Float64) : Exec Float64 := fun endpoint =>
  match Stateful.FloatValue key endpoint with
  | (Outcome.panic p, endpoint) => (Outcome.panic p, endpoint)
  | (Outcome.ok f, endpoint) => (Outcome.ok f, endpoint)
  | (Outcome.error err, endpoint) =>
    if Error.isMissingRequiredData err then (Outcome.ok d, endpoint)
    else (Outcome.error err, endpoint)

/-- The method `BooleanValue`, with the store after the call. -/
def Stateful.BooleanValue (key : String) : Exec Bool := fun endpoint =>
  match mapReadOk key endpoint with
  | (false, endpoint) => (Outcome.error (Error.EndpointMissingRequiredDataError key), endpoint)
  | (true, endpoint) =>
    match mapRead key endpoint with
    | (i, endpoint) =>
      match kindOf i with
      | Outcome.panic p => (Outcome.panic p, endpoint)
      | Outcome.error e => (Outcome.error e, endpoint)
      | Outcome.ok k =>
        if k ≠ Kind.Bool then
          (Outcome.error (Error.EndpointDataTypeMismatchError key "boolean"), endpoint)
        else
          match mapRead key endpoint with
          | (i, endpoint) => (assertBool i, endpoint)

/-- The method `BooleanValueDefault`, with the store after the call. -/
def Stateful.BooleanValueDefault (key : String) (d : Bool) : Exec Bool := fun endpoint =>
  match Stateful.BooleanValue key endpoint with
  | (Outcome.panic p, endpoint) => (Outcome.panic p, endpoint)
  | (Outcome.ok tf, endpoint) => (Outcome.ok tf, endpoint)
  | (Outcome.error err, endpoint) =>
    if Error.isMissingRequiredData err then (Outcome.ok d, endpoint)
    else (Outcome.error err, endpoint)

/-- The method `ArrayValue`, with the store after the call. -/
def Stateful.ArrayValue (key : String) : Exec (List Value) := fun endpoint =>
  match mapReadOk key endpoint with
  | (false, endpoint) => (Outcome.error (Error.EndpointMissingRequiredDataError key), endpoint)
  | (true, endpoint) =>
    match mapRead key endpoint with
    | (i, endpoint) =>
      match kindOf i with
      | Outcome.panic p => (Outcome.panic p, endpoint)
      | Outcome.error e => (Outcome.error e, endpoint)
      | Outcome.ok k =>
        if k ≠ Kind.Slice then
          (Outcome.error (Error.EndpointDataTypeMismatchError key "array"), endpoint)
        else
          match mapRead key endpoint with
          | (i, endpoint) => (assertSlice i, endpoint)

/-- The method `ArrayValueDefault`, with the store after the call; its loop
reads the slice `a` and appends to the local slice `coerced` only. -/
def Stateful.ArrayValueDefault (key : String) (d : List String) : Exec (List String) :=
  fun endpoint =>
    match Stateful.ArrayValue key endpoint with
    | (Outcome.panic p, endpoint) => (Outcome.panic p, endpoint)
    | (Outcome.ok a, endpoint) => (coerceLoop a [], endpoint)
    | (Outcome.error err, endpoint) =>
      if Error.isMissingRequiredData err then (Outcome.ok d, endpoint)
      else (Outcome.error err, endpoint)

/-- The method `MapValue`, with the store after the call. -/
def Stateful.MapValue (key : String) : Exec (List (String × Value)) := fun endpoint =>
  match mapReadOk key endpoint with
  | (false, endpoint) => (Outcome.error (Error.EndpointMissingRequiredDataError key), endpoint)
  | (true, endpoint) =>
    match mapRead key endpoint with
    | (i, endpoint) =>
      match kindOf i with
      | Outcome.panic p => (Outcome.panic p, endpoint)
      | Outcome.error e => (Outcome.error e, endpoint)
      | Outcome.ok k =>
        if k ≠ Kind.Map then
          (Outcome.error (Error.EndpointDataTypeMismatchError key "map"), endpoint)
        else
          match mapRead key endpoint with
          | (i, endpoint) => (assertMap i, endpoint)

/-! ## JSON texts -/

/-- What encloses the value being read: an object or an array. -/
inductive JSONContainer where
  | object : JSONContainer
  | array : JSONContainer
  deriving DecidableEq, Repr

/-- Where a reader of a JSON text stands between two characters. -/
inductive JSONState where
  /-- A value must begin. -/
  | beginValue : JSONState
  /-- After `[`: a value or `]`. -/
  | beginValueOrEnd : JSONState
  /-- After the opening brace of an object: a member name or the closing brace. -/
  | beginNameOrEnd : JSONState
  /-- After `,` in an object: a member name. -/
  | beginName : JSONState
  /-- After a member name: `:`. -/
  | afterName : JSONState
  /-- After a value. -/
  | endValue : JSONState
  /-- Inside a string; `isName` tells a member name from a string value. -/
  | inString (isName : Bool) : JSONState
  /-- Inside a string, after a backslash. -/
  | inStringEsc (isName : Bool) : JSONState
  /-- Inside a string, in a `\u` escape with `more + 1` hexadecimal digits to come. -/
  | inStringHex (isName : Bool) (more : Nat) : JSONState
  /-- In a number, after `-`. -/
  | numMinus : JSONState
  /-- In a number, after the single integer digit `0`. -/
  | numZero : JSONState
  /-- In a number, in the digits of an integer part that starts with `1` to `9`. -/
  | numInt : JSONState
  /-- In a number, after `.`. -/
  | numDot : JSONState
  /-- In a number, in the digits of the fraction. -/
  | numFrac : JSONState
  /-- In a number, after `e` or `E`. -/
  | numE : JSONState
  /-- In a number, after the sign of the exponent. -/
  | numESign : JSONState
  /-- In a number, in the digits of the exponent. -/
  | numExp : JSONState
  /-- In `true`, `false` or `null`, with the code points still to come. -/
  | literal (rest : List Nat) : JSONState
  /-- The text is not JSON. -/
  | invalid : JSONState
  deriving DecidableEq, Repr

/-- JSON white space: space, tab, line feed, carriage return. -/
def isJSONSpace (c : Nat) : Bool := c = 32 || c = 9 || c = 10 || c = 13

/-- The digits `0` to `9`. -/
def isJSONDigit (c : Nat) : Bool := 48 ≤ c && c ≤ 57

/-- The hexadecimal digits. -/
def isJSONHex (c : Nat) : Bool :=
  isJSONDigit c || (97 ≤ c && c ≤ 102) || (65 ≤ c && c ≤ 70)

/-- The step after a complete value, on the code point `c`. -/
def jsonEndValue (stack : List JSONContainer) (c : Nat) : JSONState × List JSONContainer :=
  if isJSONSpace c then (JSONState.endValue, stack)
  else
    match stack with
    | [] => (JSONState.invalid, [])
    | JSONContainer.object :: rest =>
      if c = 44 then (JSONState.beginName, stack)          -- ,
      else if c = 125 then (JSONState.endValue, rest)      -- closing brace
      else (JSONState.invalid, stack)
    | JSONContainer.array :: rest =>
      if c = 44 then (JSONState.beginValue, stack)         -- ,
      else if c = 93 then (JSONState.endValue, rest)       -- ]
      else (JSONState.invalid, stack)

/-- The step where a value begins, on the code point `c`. -/
def jsonBeginValue (stack : List JSONContainer) (c : Nat) : JSONState × List JSONContainer :=
  if c = 123 then (JSONState.beginNameOrEnd, JSONContainer.object :: stack)  -- opening brace
  else if c = 91 then (JSONState.beginValueOrEnd, JSONContainer.array :: stack)  -- [
  else if c = 34 then (JSONState.inString false, stack)    -- quotation mark
  else if c = 45 then (JSONState.numMinus, stack)          -- -
  else if c = 48 then (JSONState.numZero, stack)           -- 0
  else if isJSONDigit c then (JSONState.numInt, stack)     -- 1 to 9
  else if c = 116 then (JSONState.literal [114, 117, 101], stack)       -- t, then rue
  else if c = 102 then (JSONState.literal [97, 108, 115, 101], stack)   -- f, then alse
  else if c = 110 then (JSONState.literal [117, 108, 108], stack)       -- n, then ull
  else (JSONState.invalid, stack)

/-- One step of the reader of a JSON text (the grammar of RFC 8259), on the
code point `c`. -/
def jsonStep : JSONState × List JSONContainer → Nat → JSONState × List JSONContainer
  | (JSONState.beginValue, stack), c =>
    if isJSONSpace c then (JSONState.beginValue, stack) else jsonBeginValue stack c
  | (JSONState.beginValueOrEnd, stack), c =>
    if isJSONSpace c then (JSONState.beginValueOrEnd, stack)
    else if c = 93 then (JSONState.endValue, stack.tail)   -- ]
    else jsonBeginValue stack c
  | (JSONState.beginNameOrEnd, stack), c =>
    if isJSONSpace c then (JSONState.beginNameOrEnd, stack)
    else if c = 34 then (JSONState.inString true, stack)
    else if c = 125 then (JSONState.endValue, stack.tail)  -- closing brace
    else (JSONState.invalid, stack)
  | (JSONState.beginName, stack), c =>
    if isJSONSpace c then (JSONState.beginName, stack)
    else if c = 34 then (JSONState.inString true, stack)
    else (JSONState.invalid, stack)
  | (JSONState.afterName, stack), c =>
    if isJSONSpace c then (JSONState.afterName, stack)
    else if c = 58 then (JSONState.beginValue, stack)      -- :
    else (JSONState.invalid, stack)
  | (JSONState.endValue, stack), c => jsonEndValue stack c
  | (JSONState.inString isName, stack), c =>
    if c = 34 then (if isName then JSONState.afterName else JSONState.endValue, stack)
    else if c = 92 then (JSONState.inStringEsc isName, stack)   -- backslash
    else if c < 32 then (JSONState.invalid, stack)
    else (JSONState.inString isName, stack)
  | (JSONState.inStringEsc isName, stack), c =>
    if c = 34 || c = 92 || c = 47 || c = 98 || c = 102 || c = 110 || c = 114 || c = 116 then
      (JSONState.inString isName, stack)
    else if c = 117 then (JSONState.inStringHex isName 3, stack)   -- u
    else (JSONState.invalid, stack)
  | (JSONState.inStringHex isName more, stack), c =>
    if isJSONHex c then
      match more with
      | 0 => (JSONState.inString isName, stack)
      | n + 1 => (JSONState.inStringHex isName n, stack)
    else (JSONState.invalid, stack)
  | (JSONState.numMinus, stack), c =>
    if c = 48 then (JSONState.numZero, stack)
    else if isJSONDigit c then (JSONState.numInt, stack)
    else (JSONState.invalid, stack)
  | (JSONState.numZero, stack), c =>
    if c = 46 then (JSONState.numDot, stack)               -- .
    else if c = 101 || c = 69 then (JSONState.numE, stack) -- e, E
    else jsonEndValue stack c
  | (JSONState.numInt, stack), c =>
    if isJSONDigit c then (JSONState.numInt, stack)
    else if c = 46 then (JSONState.numDot, stack)
    else if c = 101 || c = 69 then (JSONState.numE, stack)
    else jsonEndValue stack c
  | (JSONState.numDot, stack), c =>
    if isJSONDigit c then (JSONState.numFrac, stack) else (JSONState.invalid, stack)
  | (JSONState.numFrac, stack), c =>
    if isJSONDigit c then (JSONState.numFrac, stack)
    else if c = 101 || c = 69 then (JSONState.numE, stack)
    else jsonEndValue stack c
  | (JSONState.numE, stack), c =>
    if c = 43 || c = 45 then (JSONState.numESign, stack)   -- +, -
    else if isJSONDigit c then (JSONState.numExp, stack)
    else (JSONState.invalid, stack)
  | (JSONState.numESign, stack), c =>
    if isJSONDigit c then (JSONState.numExp, stack) else (JSONState.invalid, stack)
  | (JSONState.numExp, stack), c =>
    if isJSONDigit c then (JSONState.numExp, stack) else jsonEndValue stack c
  | (JSONState.literal [], stack), _ => (JSONState.invalid, stack)
  | (JSONState.literal (r :: rest), stack), c =>
    if c = r then
      (match rest with
        | [] => JSONState.endValue
        | _ :: _ => JSONState.literal rest, stack)
    else (JSONState.invalid, stack)
  | (JSONState.invalid, stack), _ => (JSONState.invalid, stack)

/-- The reader run over the code points of a text, from the start. -/
def jsonRun (cs : List Nat) : JSONState × List JSONContainer :=
  cs.foldl jsonStep (JSONState.beginValue, [])

/-- The first code point of a text that is not white space. -/
def firstNonSpace : List Nat → Option Nat
  | [] => none
  | c :: cs => if isJSONSpace c then firstNonSpace cs else some c

/-- The spec's `syntactically valid JSON object`: the text is one JSON value by
the grammar of RFC 8259, white space around it allowed, and that value is an
object (it begins with an opening brace). -/
def validJSONObject (j : String) : Bool :=
  let cs := j.toList.map Char.toNat
  firstNonSpace cs == some 123 && jsonRun cs == (JSONState.endValue, [])

/-! ## Vocabulary of the statements -/

/-- Whether a call returned a value with a nil error. -/
def Outcome.isOk {α : Type} : Outcome α → Bool
  | Outcome.ok _ => true
  | _ => false

/-- The outcome is a value, or the missing-key error of `key`, or the type
mismatch error of `key` with the tag `tag`: the call did not panic. -/
def Outcome.Classified {α : Type} (key tag : String) : Outcome α → Prop
  | Outcome.ok _ => True
  | Outcome.error e =>
    e = Error.EndpointMissingRequiredDataError key
      ∨ e = Error.EndpointDataTypeMismatchError key tag
  | Outcome.panic _ => False

/-- For the five accessors in the order `StringValue`, `FloatValue`,
`BooleanValue`, `ArrayValue`, `MapValue`: whether the call on `key` succeeds. -/
def successes (endpoint : ShieldEndpoint) (key : String) : List Bool :=
  [Outcome.isOk (ShieldEndpoint.StringValue endpoint key),
   Outcome.isOk (ShieldEndpoint.FloatValue endpoint key),
   Outcome.isOk (ShieldEndpoint.BooleanValue endpoint key),
   Outcome.isOk (ShieldEndpoint.ArrayValue endpoint key),
   Outcome.isOk (ShieldEndpoint.MapValue endpoint key)]

/-- A sample of `json.Unmarshal` into a `ShieldEndpoint`, on four texts: the
literal `null` (the map is set to nil and no error is returned), the array
`[1,2,3]` (a type error, the map untouched), the object with the one member
`"name": "x"` (the member is stored) and the object with the one member
`"n": 1e400` (the number is outside the range of `float64`: the member is left
nil and a type error is returned). Any other text is reported as an error. -/
def sampleUnmarshal (j : String) (m : ShieldEndpoint) : ShieldEndpoint × Option String :=
  if j = "null" then ([], none)
  else if j = "[1,2,3]" then
    (m, some "json: cannot unmarshal array into Go value of type plugin.ShieldEndpoint")
  else if j = "\x7b\"name\": \"x\"\x7d" then (("name", Value.str "x") :: m, none)
  else if j = "\x7b\"n\": 1e400\x7d" then
    (("n", Value.null) :: m,
      some "json: cannot unmarshal number 1e400 into Go value of type float64")
  else (m, some "invalid character")

/-! ## Reading the store -/

theorem index_of_lookup {endpoint : ShieldEndpoint} {key : String} {v : Value}
    (h : ShieldEndpoint.lookup endpoint key = some v) :
    ShieldEndpoint.index endpoint key = v := by
  simp [ShieldEndpoint.index, h]

/-! ## The accessors on an absent key -/

theorem StringValue_absent {endpoint : ShieldEndpoint} {key : String}
    (h : ShieldEndpoint.lookup endpoint key = none) :
    ShieldEndpoint.StringValue endpoint key
      = Outcome.error (Error.EndpointMissingRequiredDataError key) := by
  simp [ShieldEndpoint.StringValue, h]

theorem FloatValue_absent {endpoint : ShieldEndpoint} {key : String}
    (h : ShieldEndpoint.lookup endpoint key = none) :
    ShieldEndpoint.FloatValue endpoint key
      = Outcome.error (Error.EndpointMissingRequiredDataError key) := by
  simp [ShieldEndpoint.FloatValue, h]

theorem BooleanValue_absent {endpoint : ShieldEndpoint} {key : String}
    (h : ShieldEndpoint.lookup endpoint key = none) :
    ShieldEndpoint.BooleanValue endpoint key
      = Outcome.error (Error.EndpointMissingRequiredDataError key) := by
  simp [ShieldEndpoint.BooleanValue, h]

theorem ArrayValue_absent {endpoint : ShieldEndpoint} {key : String}
    (h : ShieldEndpoint.lookup endpoint key = none) :
    ShieldEndpoint.ArrayValue endpoint key
      = Outcome.error (Error.EndpointMissingRequiredDataError key) := by
  simp [ShieldEndpoint.ArrayValue, h]

theorem MapValue_absent {endpoint : ShieldEndpoint} {key : String}
    (h : ShieldEndpoint.lookup endpoint key = none) :
    ShieldEndpoint.MapValue endpoint key
      = Outcome.error (Error.EndpointMissingRequiredDataError key) := by
  simp [ShieldEndpoint.MapValue, h]

/-! ## The accessors on a present key, by the value stored -/

theorem StringValue_present {endpoint : ShieldEndpoint} {key : String} {v : Value}
    (h : ShieldEndpoint.lookup endpoint key = some v) :
    ShieldEndpoint.StringValue endpoint key =
      match v with
      | Value.null => Outcome.panic Panic.nilDereference
      | Value.str s => Outcome.ok s
      | _ => Outcome.error (Error.EndpointDataTypeMismatchError key "string") := by
  cases v <;>
    simp [ShieldEndpoint.StringValue, ShieldEndpoint.index, h, kindOf, reflectTypeOf,
      RType.Kind, assertString]

theorem FloatValue_present {endpoint : ShieldEndpoint} {key : String} {v : Value}
    (h : ShieldEndpoint.lookup endpoint key = some v) :
    ShieldEndpoint.FloatValue endpoint key =
      match v with
      | Value.null => Outcome.panic Panic.nilDereference
      | Value.num f => Outcome.ok f
      | _ => Outcome.error (Error.EndpointDataTypeMismatchError key "numeric") := by
  cases v <;>
    simp [ShieldEndpoint.FloatValue, ShieldEndpoint.index, h, kindOf, reflectTypeOf,
      RType.Kind, assertFloat64]

theorem BooleanValue_present {endpoint : ShieldEndpoint} {key : String} {v : Value}
    (h : ShieldEndpoint.lookup endpoint key = some v) :
    ShieldEndpoint.BooleanValue endpoint key =
      match v with
      | Value.null => Outcome.panic Panic.nilDereference
      | Value.bool b => Outcome.ok b
      | _ => Outcome.error (Error.EndpointDataTypeMismatchError key "boolean") := by
  cases v <;>
    simp [ShieldEndpoint.BooleanValue, ShieldEndpoint.index, h, kindOf, reflectTypeOf,
      RType.Kind, assertBool]

theorem ArrayValue_present {endpoint : ShieldEndpoint} {key : String} {v : Value}
    (h : ShieldEndpoint.lookup endpoint key = some v) :
    ShieldEndpoint.ArrayValue endpoint key =
      match v with
      | Value.null => Outcome.panic Panic.nilDereference
      | Value.arr a => Outcome.ok a
      | _ => Outcome.error (Error.EndpointDataTypeMismatchError key "array") := by
  cases v <;>
    simp [ShieldEndpoint.ArrayValue, ShieldEndpoint.index, h, kindOf, reflectTypeOf,
      RType.Kind, assertSlice]

theorem MapValue_present {endpoint : ShieldEndpoint} {key : String} {v : Value}
    (h : ShieldEndpoint.lookup endpoint key = some v) :
    ShieldEndpoint.MapValue endpoint key =
      match v with
      | Value.null => Outcome.panic Panic.nilDereference
      | Value.obj m => Outcome.ok m
      | _ => Outcome.error (Error.EndpointDataTypeMismatchError key "map") := by
  cases v <;>
    simp [ShieldEndpoint.MapValue, ShieldEndpoint.index, h, kindOf, reflectTypeOf,
      RType.Kind, assertMap]

/-! ## The coercion loop of `ArrayValueDefault` -/

theorem coerceLoop_of_strings (a : List Value) (hs : ∀ v ∈ a, ∃ s, v = Value.str s) :
    ∀ coerced : List String,
      ∃ out : List String,
        coerceLoop a coerced = Outcome.ok (coerced ++ out) ∧ out.map Value.str = a := by
  induction a with
  | nil => intro coerced; exact ⟨[], by simp [coerceLoop], rfl⟩
  | cons elem rest ih =>
    intro coerced
    obtain ⟨s, rfl⟩ := hs elem (List.mem_cons_self _ _)
    obtain ⟨out, hout, hmap⟩ :=
      ih (fun v hv => hs v (List.mem_cons_of_mem _ hv)) (coerced ++ [s])
    refine ⟨s :: out, ?_, by simp [hmap]⟩
    simp [coerceLoop, assertString, hout]

/-! ## The default variants, from the outcome of the base accessor -/

theorem isMissingRequiredData_eq_false {e : Error}
    (hne : ∀ k, e ≠ Error.EndpointMissingRequiredDataError k) :
    Error.isMissingRequiredData e = false := by
  cases e with
  | errorString msg => rfl
  | JSONError m => rfl
  | EndpointMissingRequiredDataError k => exact absurd rfl (hne k)
  | EndpointDataTypeMismatchError k t => rfl

/-! ## Claims -/

/-- C1: when a base accessor (`StringValue`, `FloatValue`, `BooleanValue`,
`ArrayValue`) fails with an error `e` that is not an
`EndpointMissingRequiredDataError`, the default variant fails with that same
error `e`, whatever the default, and so does not return the default; on the
store with `"count": 3`, `StringValueDefault("count", "x")` fails with the type
mismatch error for key `count` and tag `string`. -/
theorem default_propagates_other_errors (endpoint : ShieldEndpoint) (key : String) (e : Error)
    (hne : ∀ k, e ≠ Error.EndpointMissingRequiredDataError k) :
    (∀ d : String, ShieldEndpoint.StringValue endpoint key = Outcome.error e →
        ShieldEndpoint.StringValueDefault endpoint key d = Outcome.error e
        ∧ ShieldEndpoint.StringValueDefault endpoint key d ≠ Outcome.ok d)
    ∧ (∀ d : Float64, ShieldEndpoint.FloatValue endpoint key = Outcome.error e →
        ShieldEndpoint.FloatValueDefault endpoint key d = Outcome.error e
        ∧ ShieldEndpoint.FloatValueDefault endpoint key d ≠ Outcome.ok d)
    ∧ (∀ d : Bool, ShieldEndpoint.BooleanValue endpoint key = Outcome.error e →
        ShieldEndpoint.BooleanValueDefault endpoint key d = Outcome.error e
        ∧ ShieldEndpoint.BooleanValueDefault endpoint key d ≠ Outcome.ok d)
    ∧ (∀ d : List String, ShieldEndpoint.ArrayValue endpoint key = Outcome.error e →
        ShieldEndpoint.ArrayValueDefault endpoint key d = Outcome.error e
        ∧ ShieldEndpoint.ArrayValueDefault endpoint key d ≠ Outcome.ok d)
    ∧ ShieldEndpoint.StringValueDefault countStore "count" "x"
        = Outcome.error (Error.EndpointDataTypeMismatchError "count" "string") := by
  have hm := isMissingRequiredData_eq_false hne
  refine ⟨?_, ?_, ?_, ?_, rfl⟩
  · intro d h
    have h1 : ShieldEndpoint.StringValueDefault endpoint key d = Outcome.error e := by
      simp [ShieldEndpoint.StringValueDefault, h, hm]
    exact ⟨h1, by simp [h1]⟩
  · intro d h
    have h1 : ShieldEndpoint.FloatValueDefault endpoint key d = Outcome.error e := by
      simp [ShieldEndpoint.FloatValueDefault, h, hm]
    exact ⟨h1, by simp [h1]⟩
  · intro d h
    have h1 : ShieldEndpoint.BooleanValueDefault endpoint key d = Outcome.error e := by
      simp [ShieldEndpoint.BooleanValueDefault, h, hm]
    exact ⟨h1, by simp [h1]⟩
  · intro d h
    have h1 : ShieldEndpoint.ArrayValueDefault endpoint key d = Outcome.error e := by
      simp [ShieldEndpoint.ArrayValueDefault, h, hm]
    exact ⟨h1, by simp [h1]⟩

/-- Witness of C1: on the store with `"count": 3` the accessors `StringValue`,
`BooleanValue` and `ArrayValue` fail on `count` with a type mismatch and so do
their default variants; on the store with `"name": "x"` the same holds of
`FloatValue`. -/
theorem default_propagates_other_errors_witness :
    (ShieldEndpoint.StringValue countStore "count"
        = Outcome.error (Error.EndpointDataTypeMismatchError "count" "string")
      ∧ ShieldEndpoint.StringValueDefault countStore "count" "x"
        = Outcome.error (Error.EndpointDataTypeMismatchError "count" "string")
      ∧ ShieldEndpoint.StringValueDefault countStore "count" "x" ≠ Outcome.ok "x")
    ∧ (ShieldEndpoint.FloatValue nameStore "name"
        = Outcome.error (Error.EndpointDataTypeMismatchError "name" "numeric")
      ∧ ShieldEndpoint.FloatValueDefault nameStore "name" Float64.seven
        = Outcome.error (Error.EndpointDataTypeMismatchError "name" "numeric"))
    ∧ (ShieldEndpoint.BooleanValue countStore "count"
        = Outcome.error (Error.EndpointDataTypeMismatchError "count" "boolean")
      ∧ ShieldEndpoint.BooleanValueDefault countStore "count" true
        = Outcome.error (Error.EndpointDataTypeMismatchError "count" "boolean"))
    ∧ (ShieldEndpoint.ArrayValue countStore "count"
        = Outcome.error (Error.EndpointDataTypeMismatchError "count" "array")
      ∧ ShieldEndpoint.ArrayValueDefault countStore "count" ["x"]
        = Outcome.error (Error.EndpointDataTypeMismatchError "count" "array")) :=
  ⟨⟨rfl, (default_propagates_other_errors countStore "count"
        (Error.EndpointDataTypeMismatchError "count" "string")
        (fun _ h => Error.noConfusion h)).1 "x" rfl⟩,
   ⟨rfl, ((default_propagates_other_errors nameStore "name"
        (Error.EndpointDataTypeMismatchError "name" "numeric")
        (fun _ h => Error.noConfusion h)).2.1 Float64.seven rfl).1⟩,
   ⟨rfl, ((default_propagates_other_errors countStore "count"
        (Error.EndpointDataTypeMismatchError "count" "boolean")
        (fun _ h => Error.noConfusion h)).2.2.1 true rfl).1⟩,
   ⟨rfl, ((default_propagates_other_errors countStore "count"
        (Error.EndpointDataTypeMismatchError "count" "array")
        (fun _ h => Error.noConfusion h)).2.2.2.1 ["x"] rfl).1⟩⟩

/-- C2: on a key that is not in the store every default variant returns the
default with no error; on the store with `"count": 3`,
`FloatValueDefault("absent", 7)` returns `7`. -/
theorem default_on_absent_key (endpoint : ShieldEndpoint) (key : String)
    (h : ShieldEndpoint.lookup endpoint key = none) :
    (∀ d : String, ShieldEndpoint.StringValueDefault endpoint key d = Outcome.ok d)
    ∧ (∀ d : Float64, ShieldEndpoint.FloatValueDefault endpoint key d = Outcome.ok d)
    ∧ (∀ d : Bool, ShieldEndpoint.BooleanValueDefault endpoint key d = Outcome.ok d)
    ∧ (∀ d : List String, ShieldEndpoint.ArrayValueDefault endpoint key d = Outcome.ok d)
    ∧ ShieldEndpoint.FloatValueDefault countStore "absent" Float64.seven
        = Outcome.ok Float64.seven := by
  refine ⟨?_, ?_, ?_, ?_, rfl⟩
  · intro d
    simp [ShieldEndpoint.StringValueDefault, StringValue_absent h, Error.isMissingRequiredData]
  · intro d
    simp [ShieldEndpoint.FloatValueDefault, FloatValue_absent h, Error.isMissingRequiredData]
  · intro d
    simp [ShieldEndpoint.BooleanValueDefault, BooleanValue_absent h, Error.isMissingRequiredData]
  · intro d
    simp [ShieldEndpoint.ArrayValueDefault, ArrayValue_absent h, Error.isMissingRequiredData]

/-- Witness of C2: `absent` is not a key of the store with `"count": 3`, and the
four default variants return their default there. -/
theorem default_on_absent_key_witness :
    ShieldEndpoint.lookup countStore "absent" = none
    ∧ ShieldEndpoint.StringValueDefault countStore "absent" "x" = Outcome.ok "x"
    ∧ ShieldEndpoint.FloatValueDefault countStore "absent" Float64.seven
        = Outcome.ok Float64.seven
    ∧ ShieldEndpoint.BooleanValueDefault countStore "absent" true = Outcome.ok true
    ∧ ShieldEndpoint.ArrayValueDefault countStore "absent" ["a", "b"]
        = Outcome.ok ["a", "b"] :=
  have h := default_on_absent_key countStore "absent" rfl
  ⟨rfl, h.1 "x", h.2.1 Float64.seven, h.2.2.1 true, h.2.2.2.1 ["a", "b"]⟩

/-- C3: on a key that is not in the store each of the five accessors fails with
the `EndpointMissingRequiredDataError` of exactly that key, whatever the type
asked for. -/
theorem accessors_missing_key (endpoint : ShieldEndpoint) (key : String)
    (h : ShieldEndpoint.lookup endpoint key = none) :
    ShieldEndpoint.StringValue endpoint key
        = Outcome.error (Error.EndpointMissingRequiredDataError key)
    ∧ ShieldEndpoint.FloatValue endpoint key
        = Outcome.error (Error.EndpointMissingRequiredDataError key)
    ∧ ShieldEndpoint.BooleanValue endpoint key
        = Outcome.error (Error.EndpointMissingRequiredDataError key)
    ∧ ShieldEndpoint.ArrayValue endpoint key
        = Outcome.error (Error.EndpointMissingRequiredDataError key)
    ∧ ShieldEndpoint.MapValue endpoint key
        = Outcome.error (Error.EndpointMissingRequiredDataError key) :=
  ⟨StringValue_absent h, FloatValue_absent h, BooleanValue_absent h, ArrayValue_absent h,
    MapValue_absent h⟩

/-- Witness of C3: `missing` is not a key of the store with `"name": "x"`, and
the five accessors report it missing. -/
theorem accessors_missing_key_witness :
    ShieldEndpoint.lookup nameStore "missing" = none
    ∧ ShieldEndpoint.StringValue nameStore "missing"
        = Outcome.error (Error.EndpointMissingRequiredDataError "missing")
    ∧ ShieldEndpoint.MapValue nameStore "missing"
        = Outcome.error (Error.EndpointMissingRequiredDataError "missing") :=
  have h := accessors_missing_key nameStore "missing" rfl
  ⟨rfl, h.1, h.2.2.2.2⟩

/-- C4: the code at the failing input. On the store with `"k": null` the key
`k` is present, and each of the five accessors panics on it (the method `Kind`
is called on the nil `reflect.Type`) instead of failing with a type mismatch
error. -/
theorem accessors_panic_on_null :
    ShieldEndpoint.lookup nullStore "k" = some Value.null
    ∧ ShieldEndpoint.StringValue nullStore "k" = Outcome.panic Panic.nilDereference
    ∧ ShieldEndpoint.FloatValue nullStore "k" = Outcome.panic Panic.nilDereference
    ∧ ShieldEndpoint.BooleanValue nullStore "k" = Outcome.panic Panic.nilDereference
    ∧ ShieldEndpoint.ArrayValue nullStore "k" = Outcome.panic Panic.nilDereference
    ∧ ShieldEndpoint.MapValue nullStore "k" = Outcome.panic Panic.nilDereference
    ∧ ShieldEndpoint.StringValue nullStore "k"
        ≠ Outcome.error (Error.EndpointDataTypeMismatchError "k" "string") :=
  ⟨rfl, rfl, rfl, rfl, rfl, rfl, by decide⟩

/-- C5: on a key that holds a string, a number or a boolean, the accessor of
that kind (`StringValue`, `FloatValue`, `BooleanValue`) returns exactly the
stored value with no error, whatever the string or the number; on the store with
`"name": "x"`, `StringValue("name")` returns `"x"`. -/
theorem scalar_accessors_return_stored (endpoint : ShieldEndpoint) (key : String) :
    (∀ s : String, ShieldEndpoint.lookup endpoint key = some (Value.str s) →
        ShieldEndpoint.StringValue endpoint key = Outcome.ok s)
    ∧ (∀ f : Float64, ShieldEndpoint.lookup endpoint key = some (Value.num f) →
        ShieldEndpoint.FloatValue endpoint key = Outcome.ok f)
    ∧ (∀ b : Bool, ShieldEndpoint.lookup endpoint key = some (Value.bool b) →
        ShieldEndpoint.BooleanValue endpoint key = Outcome.ok b)
    ∧ ShieldEndpoint.StringValue nameStore "name" = Outcome.ok "x" :=
  ⟨fun _ h => StringValue_present h, fun _ h => FloatValue_present h,
    fun _ h => BooleanValue_present h, rfl⟩

/-- Witness of C5: a store holding the empty string, the number `7` and `false`;
each is returned as stored. -/
theorem scalar_accessors_return_stored_witness :
    ShieldEndpoint.StringValue
        [("s", Value.str ""), ("n", Value.num Float64.seven), ("b", Value.bool false)] "s"
      = Outcome.ok ""
    ∧ ShieldEndpoint.FloatValue
        [("s", Value.str ""), ("n", Value.num Float64.seven), ("b", Value.bool false)] "n"
      = Outcome.ok Float64.seven
    ∧ ShieldEndpoint.BooleanValue
        [("s", Value.str ""), ("n", Value.num Float64.seven), ("b", Value.bool false)] "b"
      = Outcome.ok false :=
  ⟨(scalar_accessors_return_stored _ "s").1 "" rfl,
   (scalar_accessors_return_stored _ "n").2.1 Float64.seven rfl,
   (scalar_accessors_return_stored _ "b").2.2.1 false rfl⟩

/-- C6: when `StringValue`, `FloatValue` or `BooleanValue` succeeds with `v`, the
default variant succeeds with the same `v`, whatever the default; on the store
with `"count": 3`, `FloatValueDefault("count", 0)` returns `3`. -/
theorem default_returns_base_value (endpoint : ShieldEndpoint) (key : String) :
    (∀ (v d : String), ShieldEndpoint.StringValue endpoint key = Outcome.ok v →
        ShieldEndpoint.StringValueDefault endpoint key d = Outcome.ok v)
    ∧ (∀ (v d : Float64), ShieldEndpoint.FloatValue endpoint key = Outcome.ok v →
        ShieldEndpoint.FloatValueDefault endpoint key d = Outcome.ok v)
    ∧ (∀ (v d : Bool), ShieldEndpoint.BooleanValue endpoint key = Outcome.ok v →
        ShieldEndpoint.BooleanValueDefault endpoint key d = Outcome.ok v)
    ∧ ShieldEndpoint.FloatValueDefault countStore "count" Float64.zero
        = Outcome.ok Float64.three := by
  refine ⟨?_, ?_, ?_, rfl⟩
  · intro v d h
    simp [ShieldEndpoint.StringValueDefault, h]
  · intro v d h
    simp [ShieldEndpoint.FloatValueDefault, h]
  · intro v d h
    simp [ShieldEndpoint.BooleanValueDefault, h]

/-- Witness of C6: the three scalar accessors succeed on a stored value of their
kind, and the default variants return that value and not the default. -/
theorem default_returns_base_value_witness :
    (ShieldEndpoint.StringValue nameStore "name" = Outcome.ok "x"
      ∧ ShieldEndpoint.StringValueDefault nameStore "name" "other" = Outcome.ok "x")
    ∧ (ShieldEndpoint.FloatValue countStore "count" = Outcome.ok Float64.three
      ∧ ShieldEndpoint.FloatValueDefault countStore "count" Float64.zero
          = Outcome.ok Float64.three)
    ∧ (ShieldEndpoint.BooleanValue [("on", Value.bool true)] "on" = Outcome.ok true
      ∧ ShieldEndpoint.BooleanValueDefault [("on", Value.bool true)] "on" false
          = Outcome.ok true) :=
  ⟨⟨rfl, (default_returns_base_value nameStore "name").1 "x" "other" rfl⟩,
   ⟨rfl, (default_returns_base_value countStore "count").2.1 Float64.three Float64.zero rfl⟩,
   ⟨rfl, (default_returns_base_value [("on", Value.bool true)] "on").2.2.1 true false rfl⟩⟩

/-- C7: on a key that holds an array whose elements are all strings,
`ArrayValueDefault` succeeds, whatever the default, with a sequence of strings
of the length of the stored array whose `i`-th element is the `i`-th stored
string; on the store with `"tags": ["a","b"]` it returns `["a","b"]`. -/
theorem ArrayValueDefault_of_strings (endpoint : ShieldEndpoint) (key : String)
    (a : List Value) (d : List String)
    (h : ShieldEndpoint.lookup endpoint key = some (Value.arr a))
    (hs : ∀ v ∈ a, ∃ s, v = Value.str s) :
    (∃ out : List String,
        ShieldEndpoint.ArrayValueDefault endpoint key d = Outcome.ok out
        ∧ out.length = a.length
        ∧ (∀ i : Nat, a[i]? = (out[i]?).map Value.str)
        ∧ out.map Value.str = a)
    ∧ ShieldEndpoint.ArrayValueDefault tagsStore "tags" d = Outcome.ok ["a", "b"] := by
  refine ⟨?_, rfl⟩
  obtain ⟨out, hout, hmap⟩ := coerceLoop_of_strings a hs []
  refine ⟨out, ?_, ?_, ?_, hmap⟩
  · have ha : ShieldEndpoint.ArrayValue endpoint key = Outcome.ok a := ArrayValue_present h
    simpa [ShieldEndpoint.ArrayValueDefault, ha] using hout
  · rw [← hmap, List.length_map]
  · intro i
    rw [← hmap, List.getElem?_map]

/-- Witness of C7: the array `["a","b"]` of the store with `"tags"` holds only
strings, and `ArrayValueDefault` returns a sequence of the same length with the
same strings in the same order, not the default `["z"]`. -/
theorem ArrayValueDefault_of_strings_witness :
    ShieldEndpoint.lookup tagsStore "tags" = some (Value.arr [Value.str "a", Value.str "b"])
    ∧ (∃ out : List String,
        ShieldEndpoint.ArrayValueDefault tagsStore "tags" ["z"] = Outcome.ok out
        ∧ out.length = [Value.str "a", Value.str "b"].length
        ∧ (∀ i : Nat, [Value.str "a", Value.str "b"][i]? = (out[i]?).map Value.str)
        ∧ out.map Value.str = [Value.str "a", Value.str "b"]) :=
  ⟨rfl, (ArrayValueDefault_of_strings tagsStore "tags" [Value.str "a", Value.str "b"] ["z"] rfl
    (by
      intro v hv
      simp only [List.mem_cons, List.mem_singleton, List.not_mem_nil, or_false] at hv
      rcases hv with rfl | rfl
      · exact ⟨"a", rfl⟩
      · exact ⟨"b", rfl⟩)).1⟩

/-- C8: on a key that holds a map, `MapValue` returns exactly the stored mapping,
its values left as they are; on a key that holds an array, `ArrayValue` returns
the stored sequence unchanged; on the store whose `"opts"` is the object with
`"a": 1` and `"b": true`, `MapValue("opts")` returns the two entries, `1` still
a number and `true` still a boolean. -/
theorem composite_accessors_return_stored (endpoint : ShieldEndpoint) (key : String) :
    (∀ m : List (String × Value), ShieldEndpoint.lookup endpoint key = some (Value.obj m) →
        ShieldEndpoint.MapValue endpoint key = Outcome.ok m)
    ∧ (∀ a : List Value, ShieldEndpoint.lookup endpoint key = some (Value.arr a) →
        ShieldEndpoint.ArrayValue endpoint key = Outcome.ok a)
    ∧ ShieldEndpoint.MapValue optsStore "opts"
        = Outcome.ok [("a", Value.num Float64.one), ("b", Value.bool true)] :=
  ⟨fun _ h => MapValue_present h, fun _ h => ArrayValue_present h, rfl⟩

/-- Witness of C8: a store with a map and with an array of mixed elements; both
come back as stored. -/
theorem composite_accessors_return_stored_witness :
    ShieldEndpoint.MapValue
        [("m", Value.obj [("a", Value.num Float64.one), ("n", Value.null)]),
         ("l", Value.arr [Value.str "a", Value.num Float64.three, Value.arr []])] "m"
      = Outcome.ok [("a", Value.num Float64.one), ("n", Value.null)]
    ∧ ShieldEndpoint.ArrayValue
        [("m", Value.obj [("a", Value.num Float64.one), ("n", Value.null)]),
         ("l", Value.arr [Value.str "a", Value.num Float64.three, Value.arr []])] "l"
      = Outcome.ok [Value.str "a", Value.num Float64.three, Value.arr []] :=
  ⟨(composite_accessors_return_stored _ "m").1 _ rfl,
   (composite_accessors_return_stored _ "l").2.1 _ rfl⟩

/-- C9: when an accessor returns an `EndpointDataTypeMismatchError`, its key is
the requested key and its tag is `string` for `StringValue`, `numeric` for
`FloatValue`, `boolean` for `BooleanValue`, `array` for `ArrayValue` and `map`
for `MapValue`; the five tags are pairwise distinct. -/
theorem mismatch_error_key_and_tag (endpoint : ShieldEndpoint) (key k t : String) :
    (ShieldEndpoint.StringValue endpoint key
        = Outcome.error (Error.EndpointDataTypeMismatchError k t) → k = key ∧ t = "string")
    ∧ (ShieldEndpoint.FloatValue endpoint key
        = Outcome.error (Error.EndpointDataTypeMismatchError k t) → k = key ∧ t = "numeric")
    ∧ (ShieldEndpoint.BooleanValue endpoint key
        = Outcome.error (Error.EndpointDataTypeMismatchError k t) → k = key ∧ t = "boolean")
    ∧ (ShieldEndpoint.ArrayValue endpoint key
        = Outcome.error (Error.EndpointDataTypeMismatchError k t) → k = key ∧ t = "array")
    ∧ (ShieldEndpoint.MapValue endpoint key
        = Outcome.error (Error.EndpointDataTypeMismatchError k t) → k = key ∧ t = "map")
    ∧ ["string", "numeric", "boolean", "array", "map"].Nodup := by
  refine ⟨?_, ?_, ?_, ?_, ?_, by decide⟩
  · cases h : ShieldEndpoint.lookup endpoint key with
    | none => simp [StringValue_absent h]
    | some v =>
      rw [StringValue_present h]
      cases v <;> simp <;> (intro h1 h2; exact ⟨h1.symm, h2.symm⟩)
  · cases h : ShieldEndpoint.lookup endpoint key with
    | none => simp [FloatValue_absent h]
    | some v =>
      rw [FloatValue_present h]
      cases v <;> simp <;> (intro h1 h2; exact ⟨h1.symm, h2.symm⟩)
  · cases h : ShieldEndpoint.lookup endpoint key with
    | none => simp [BooleanValue_absent h]
    | some v =>
      rw [BooleanValue_present h]
      cases v <;> simp <;> (intro h1 h2; exact ⟨h1.symm, h2.symm⟩)
  · cases h : ShieldEndpoint.lookup endpoint key with
    | none => simp [ArrayValue_absent h]
    | some v =>
      rw [ArrayValue_present h]
      cases v <;> simp <;> (intro h1 h2; exact ⟨h1.symm, h2.symm⟩)
  · cases h : ShieldEndpoint.lookup endpoint key with
    | none => simp [MapValue_absent h]
    | some v =>
      rw [MapValue_present h]
      cases v <;> simp <;> (intro h1 h2; exact ⟨h1.symm, h2.symm⟩)

/-- Witness of C9: on the store with `"count": 3` the accessors other than
`FloatValue` return a type mismatch on `count`, and on the store with
`"name": "x"` so does `FloatValue`; each error carries the key asked for and the
tag of its accessor. -/
theorem mismatch_error_key_and_tag_witness :
    (ShieldEndpoint.StringValue countStore "count"
        = Outcome.error (Error.EndpointDataTypeMismatchError "count" "string")
      ∧ "count" = "count" ∧ "string" = "string")
    ∧ (ShieldEndpoint.FloatValue nameStore "name"
        = Outcome.error (Error.EndpointDataTypeMismatchError "name" "numeric")
      ∧ "name" = "name" ∧ "numeric" = "numeric")
    ∧ (ShieldEndpoint.BooleanValue countStore "count"
        = Outcome.error (Error.EndpointDataTypeMismatchError "count" "boolean")
      ∧ "count" = "count" ∧ "boolean" = "boolean")
    ∧ (ShieldEndpoint.ArrayValue countStore "count"
        = Outcome.error (Error.EndpointDataTypeMismatchError "count" "array")
      ∧ "count" = "count" ∧ "array" = "array")
    ∧ (ShieldEndpoint.MapValue countStore "count"
        = Outcome.error (Error.EndpointDataTypeMismatchError "count" "map")
      ∧ "count" = "count" ∧ "map" = "map") :=
  ⟨⟨rfl, (mismatch_error_key_and_tag countStore "count" "count" "string").1 rfl⟩,
   ⟨rfl, (mismatch_error_key_and_tag nameStore "name" "name" "numeric").2.1 rfl⟩,
   ⟨rfl, (mismatch_error_key_and_tag countStore "count" "count" "boolean").2.2.1 rfl⟩,
   ⟨rfl, (mismatch_error_key_and_tag countStore "count" "count" "array").2.2.2.1 rfl⟩,
   ⟨rfl, (mismatch_error_key_and_tag countStore "count" "count" "map").2.2.2.2.1 rfl⟩⟩

/-- C10: `getEndpoint` on the empty string fails with the error of
`fmt.Errorf("Missing required --endpoint flag")` and returns no store, whatever
the JSON decoder would do (the decoder is not consulted), and that error is not
a `JSONError`. -/
theorem getEndpoint_empty
    (unmarshal : String → ShieldEndpoint → ShieldEndpoint × Option String) :
    getEndpoint unmarshal ""
        = Outcome.error (Error.errorString "Missing required --endpoint flag")
    ∧ (∀ store : ShieldEndpoint, getEndpoint unmarshal "" ≠ Outcome.ok store)
    ∧ (∀ msg : String, getEndpoint unmarshal "" ≠ Outcome.error (Error.JSONError msg)) := by
  have h : getEndpoint unmarshal ""
      = Outcome.error (Error.errorString "Missing required --endpoint flag") := by
    simp [getEndpoint]
  refine ⟨h, ?_, ?_⟩
  · intro store
    rw [h]
    exact fun hc => Outcome.noConfusion hc
  · intro msg
    rw [h]
    exact fun hc => Error.noConfusion (Outcome.error.inj hc)

/-! ## The decoder's verdict in `getEndpoint` -/

theorem getEndpoint_decoder_error
    (unmarshal : String → ShieldEndpoint → ShieldEndpoint × Option String)
    (j msg : String) (m : ShieldEndpoint) (hj : j ≠ "")
    (h : unmarshal j [] = (m, some msg)) :
    getEndpoint unmarshal j
      = Outcome.error
          (Error.JSONError ("Error trying parse --endpoint value as JSON: " ++ msg)) := by
  simp [getEndpoint, hj, h]

theorem getEndpoint_decoder_ok
    (unmarshal : String → ShieldEndpoint → ShieldEndpoint × Option String)
    (j : String) (m : ShieldEndpoint) (hj : j ≠ "")
    (h : unmarshal j [] = (m, none)) :
    getEndpoint unmarshal j = Outcome.ok m := by
  simp [getEndpoint, hj, h]

/-! ## The state transformers leave the store as it is -/

theorem Stateful_StringValue_eq (key : String) (endpoint : ShieldEndpoint) :
    Stateful.StringValue key endpoint = (ShieldEndpoint.StringValue endpoint key, endpoint) := by
  unfold Stateful.StringValue ShieldEndpoint.StringValue mapReadOk mapRead
  cases h : ShieldEndpoint.lookup endpoint key with
  | none => simp
  | some v => cases v <;> simp [ShieldEndpoint.index, h, kindOf, reflectTypeOf, RType.Kind]

theorem Stateful_FloatValue_eq (key : String) (endpoint : ShieldEndpoint) :
    Stateful.FloatValue key endpoint = (ShieldEndpoint.FloatValue endpoint key, endpoint) := by
  unfold Stateful.FloatValue ShieldEndpoint.FloatValue mapReadOk mapRead
  cases h : ShieldEndpoint.lookup endpoint key with
  | none => simp
  | some v => cases v <;> simp [ShieldEndpoint.index, h, kindOf, reflectTypeOf, RType.Kind]

theorem Stateful_BooleanValue_eq (key : String) (endpoint : ShieldEndpoint) :
    Stateful.BooleanValue key endpoint
      = (ShieldEndpoint.BooleanValue endpoint key, endpoint) := by
  unfold Stateful.BooleanValue ShieldEndpoint.BooleanValue mapReadOk mapRead
  cases h : ShieldEndpoint.lookup endpoint key with
  | none => simp
  | some v => cases v <;> simp [ShieldEndpoint.index, h, kindOf, reflectTypeOf, RType.Kind]

theorem Stateful_ArrayValue_eq (key : String) (endpoint : ShieldEndpoint) :
    Stateful.ArrayValue key endpoint = (ShieldEndpoint.ArrayValue endpoint key, endpoint) := by
  unfold Stateful.ArrayValue ShieldEndpoint.ArrayValue mapReadOk mapRead
  cases h : ShieldEndpoint.lookup endpoint key with
  | none => simp
  | some v => cases v <;> simp [ShieldEndpoint.index, h, kindOf, reflectTypeOf, RType.Kind]

theorem Stateful_MapValue_eq (key : String) (endpoint : ShieldEndpoint) :
    Stateful.MapValue key endpoint = (ShieldEndpoint.MapValue endpoint key, endpoint) := by
  unfold Stateful.MapValue ShieldEndpoint.MapValue mapReadOk mapRead
  cases h : ShieldEndpoint.lookup endpoint key with
  | none => simp
  | some v => cases v <;> simp [ShieldEndpoint.index, h, kindOf, reflectTypeOf, RType.Kind]

theorem Stateful_StringValueDefault_eq (key d : String) (endpoint : ShieldEndpoint) :
    Stateful.StringValueDefault key d endpoint
      = (ShieldEndpoint.StringValueDefault endpoint key d, endpoint) := by
  unfold Stateful.StringValueDefault ShieldEndpoint.StringValueDefault
  rw [Stateful_StringValue_eq]
  cases ShieldEndpoint.StringValue endpoint key with
  | ok v => rfl
  | panic p => rfl
  | error e => cases he : Error.isMissingRequiredData e <;> simp [he]

theorem Stateful_FloatValueDefault_eq (key : String) (d : Float64) (endpoint : ShieldEndpoint) :
    Stateful.FloatValueDefault key d endpoint
      = (ShieldEndpoint.FloatValueDefault endpoint key d, endpoint) := by
  unfold Stateful.FloatValueDefault ShieldEndpoint.FloatValueDefault
  rw [Stateful_FloatValue_eq]
  cases ShieldEndpoint.FloatValue endpoint key with
  | ok v => rfl
  | panic p => rfl
  | error e => cases he : Error.isMissingRequiredData e <;> simp [he]

theorem Stateful_BooleanValueDefault_eq (key : String) (d : Bool) (endpoint : ShieldEndpoint) :
    Stateful.BooleanValueDefault key d endpoint
      = (ShieldEndpoint.BooleanValueDefault endpoint key d, endpoint) := by
  unfold Stateful.BooleanValueDefault ShieldEndpoint.BooleanValueDefault
  rw [Stateful_BooleanValue_eq]
  cases ShieldEndpoint.BooleanValue endpoint key with
  | ok v => rfl
  | panic p => rfl
  | error e => cases he : Error.isMissingRequiredData e <;> simp [he]

theorem Stateful_ArrayValueDefault_eq (key : String) (d : List String)
    (endpoint : ShieldEndpoint) :
    Stateful.ArrayValueDefault key d endpoint
      = (ShieldEndpoint.ArrayValueDefault endpoint key d, endpoint) := by
  unfold Stateful.ArrayValueDefault ShieldEndpoint.ArrayValueDefault
  rw [Stateful_ArrayValue_eq]
  cases ShieldEndpoint.ArrayValue endpoint key with
  | ok v => rfl
  | panic p => rfl
  | error e => cases he : Error.isMissingRequiredData e <;> simp [he]

/-! ## The coercion loop on an element that is not a string -/

theorem coerceLoop_of_non_string (a : List Value)
    (hn : ∃ v ∈ a, ∀ s, v ≠ Value.str s) :
    ∀ coerced : List String,
      coerceLoop a coerced = Outcome.panic Panic.interfaceConversion := by
  induction a with
  | nil =>
    obtain ⟨v, hv, _⟩ := hn
    cases hv
  | cons elem rest ih =>
    intro coerced
    cases elem with
    | str s =>
      have hrest : ∃ v ∈ rest, ∀ s, v ≠ Value.str s := by
        obtain ⟨v, hv, hne⟩ := hn
        rcases List.mem_cons.mp hv with rfl | hv
        · exact absurd rfl (hne s)
        · exact ⟨v, hv, hne⟩
      simp [coerceLoop, assertString, ih hrest]
    | null => simp [coerceLoop, assertString]
    | bool b => simp [coerceLoop, assertString]
    | num f => simp [coerceLoop, assertString]
    | arr l => simp [coerceLoop, assertString]
    | obj m => simp [coerceLoop, assertString]

/-! ## Claims on construction, purity and aborts -/

/-- C11: the code at the failing input. With a decoder that, like
`json.Unmarshal` on a map, answers the text `null` by setting the map to nil
with no error, `getEndpoint` on `null` succeeds with the empty store and returns
no `JSONError`; on every non-empty text for which the decoder reports an error,
`getEndpoint` fails with the `JSONError` whose message ends with the decoder's
message. -/
theorem getEndpoint_null_accepted
    (unmarshal : String → ShieldEndpoint → ShieldEndpoint × Option String)
    (h : unmarshal "null" [] = ([], none)) :
    getEndpoint unmarshal "null" = Outcome.ok []
    ∧ (∀ msg : String, getEndpoint unmarshal "null" ≠ Outcome.error (Error.JSONError msg))
    ∧ (∀ (j msg : String) (m : ShieldEndpoint), j ≠ "" → unmarshal j [] = (m, some msg) →
        getEndpoint unmarshal j
          = Outcome.error
              (Error.JSONError ("Error trying parse --endpoint value as JSON: " ++ msg))) := by
  have h0 : getEndpoint unmarshal "null" = Outcome.ok [] :=
    getEndpoint_decoder_ok unmarshal "null" [] (by decide) h
  refine ⟨h0, ?_, ?_⟩
  · intro msg
    rw [h0]
    exact fun hc => Outcome.noConfusion hc
  · intro j msg m hj hm
    exact getEndpoint_decoder_error unmarshal j msg m hj hm

/-- Witness of C11: the sample decoder answers `null` with the nil map and no
error, so `getEndpoint` succeeds on `null`, while on `[1,2,3]` it fails with a
`JSONError` carrying the decoder's message. -/
theorem getEndpoint_null_accepted_witness :
    sampleUnmarshal "null" [] = ([], none)
    ∧ getEndpoint sampleUnmarshal "null" = Outcome.ok []
    ∧ getEndpoint sampleUnmarshal "[1,2,3]"
        = Outcome.error (Error.JSONError
            ("Error trying parse --endpoint value as JSON: "
              ++ "json: cannot unmarshal array into Go value of type plugin.ShieldEndpoint")) :=
  have h := getEndpoint_null_accepted sampleUnmarshal rfl
  ⟨rfl, h.1, h.2.2 "[1,2,3]" _ [] (by decide) rfl⟩

/-- C12, the claim refuted: the text of the object with the one member
`"n": 1e400` is not empty and is a syntactically valid JSON object, yet the
decoder reports its number as outside the range of `float64`, so `getEndpoint`
fails with a `JSONError` and returns no store. -/
theorem getEndpoint_rejects_valid_object :
    "\x7b\"n\": 1e400\x7d" ≠ ""
    ∧ validJSONObject "\x7b\"n\": 1e400\x7d" = true
    ∧ (∃ msg : String,
        getEndpoint sampleUnmarshal "\x7b\"n\": 1e400\x7d"
          = Outcome.error (Error.JSONError msg))
    ∧ (∀ store : ShieldEndpoint,
        getEndpoint sampleUnmarshal "\x7b\"n\": 1e400\x7d" ≠ Outcome.ok store) := by
  have h0 := getEndpoint_decoder_error sampleUnmarshal "\x7b\"n\": 1e400\x7d"
    "json: cannot unmarshal number 1e400 into Go value of type float64"
    [("n", Value.null)] (by decide) rfl
  refine ⟨by decide, by decide, ⟨_, h0⟩, ?_⟩
  intro store
  rw [h0]
  exact fun hc => Outcome.noConfusion hc

/-- C12, amended: on a non-empty text that is a syntactically valid JSON object
and that the JSON decoder decodes with no error into the map `m`, starting from
the empty map, `getEndpoint` succeeds and the store it returns is `m` itself,
with the same keys and values: every key reads in the returned store as it reads
in `m`. -/
theorem getEndpoint_returns_decoded
    (unmarshal : String → ShieldEndpoint → ShieldEndpoint × Option String)
    (j : String) (m : ShieldEndpoint) (hj : j ≠ "")
    (_hv : validJSONObject j = true) (h : unmarshal j [] = (m, none)) :
    getEndpoint unmarshal j = Outcome.ok m
    ∧ (∀ store : ShieldEndpoint, getEndpoint unmarshal j = Outcome.ok store →
        store = m ∧ ∀ key : String,
          ShieldEndpoint.lookup store key = ShieldEndpoint.lookup m key) := by
  have h0 : getEndpoint unmarshal j = Outcome.ok m := getEndpoint_decoder_ok unmarshal j m hj h
  refine ⟨h0, ?_⟩
  intro store hs
  rw [h0] at hs
  have hm : m = store := Outcome.ok.inj hs
  subst hm
  exact ⟨rfl, fun _ => rfl⟩

/-- Witness of C12: the text of the object with the one member `"name": "x"` is
a valid JSON object, the sample decoder decodes it into the store with that
member, and `getEndpoint` returns that store; the literal `null` is not a JSON
object. -/
theorem getEndpoint_returns_decoded_witness :
    "\x7b\"name\": \"x\"\x7d" ≠ ""
    ∧ validJSONObject "\x7b\"name\": \"x\"\x7d" = true
    ∧ sampleUnmarshal "\x7b\"name\": \"x\"\x7d" [] = (nameStore, none)
    ∧ getEndpoint sampleUnmarshal "\x7b\"name\": \"x\"\x7d" = Outcome.ok nameStore
    ∧ validJSONObject "null" = false :=
  ⟨by decide, by decide, rfl,
    (getEndpoint_returns_decoded sampleUnmarshal "\x7b\"name\": \"x\"\x7d" nameStore
      (by decide) (by decide) rfl).1, by decide⟩

/-- C13: each of the five accessors and four default variants leaves the store
as it was, and a second call with the same key (and default), made on the store
left by the first, has the outcome of the first. -/
theorem accessors_deterministic_and_pure (endpoint : ShieldEndpoint) (key : String)
    (ds : String) (df : Float64) (db : Bool) (da : List String) :
    ((Stateful.StringValue key endpoint).2 = endpoint
      ∧ (Stateful.StringValue key (Stateful.StringValue key endpoint).2).1
          = (Stateful.StringValue key endpoint).1)
    ∧ ((Stateful.FloatValue key endpoint).2 = endpoint
      ∧ (Stateful.FloatValue key (Stateful.FloatValue key endpoint).2).1
          = (Stateful.FloatValue key endpoint).1)
    ∧ ((Stateful.BooleanValue key endpoint).2 = endpoint
      ∧ (Stateful.BooleanValue key (Stateful.BooleanValue key endpoint).2).1
          = (Stateful.BooleanValue key endpoint).1)
    ∧ ((Stateful.ArrayValue key endpoint).2 = endpoint
      ∧ (Stateful.ArrayValue key (Stateful.ArrayValue key endpoint).2).1
          = (Stateful.ArrayValue key endpoint).1)
    ∧ ((Stateful.MapValue key endpoint).2 = endpoint
      ∧ (Stateful.MapValue key (Stateful.MapValue key endpoint).2).1
          = (Stateful.MapValue key endpoint).1)
    ∧ ((Stateful.StringValueDefault key ds endpoint).2 = endpoint
      ∧ (Stateful.StringValueDefault key ds (Stateful.StringValueDefault key ds endpoint).2).1
          = (Stateful.StringValueDefault key ds endpoint).1)
    ∧ ((Stateful.FloatValueDefault key df endpoint).2 = endpoint
      ∧ (Stateful.FloatValueDefault key df (Stateful.FloatValueDefault key df endpoint).2).1
          = (Stateful.FloatValueDefault key df endpoint).1)
    ∧ ((Stateful.BooleanValueDefault key db endpoint).2 = endpoint
      ∧ (Stateful.BooleanValueDefault key db
            (Stateful.BooleanValueDefault key db endpoint).2).1
          = (Stateful.BooleanValueDefault key db endpoint).1)
    ∧ ((Stateful.ArrayValueDefault key da endpoint).2 = endpoint
      ∧ (Stateful.ArrayValueDefault key da (Stateful.ArrayValueDefault key da endpoint).2).1
          = (Stateful.ArrayValueDefault key da endpoint).1) := by
  simp only [Stateful_StringValue_eq, Stateful_FloatValue_eq, Stateful_BooleanValue_eq,
    Stateful_ArrayValue_eq, Stateful_MapValue_eq, Stateful_StringValueDefault_eq,
    Stateful_FloatValueDefault_eq, Stateful_BooleanValueDefault_eq,
    Stateful_ArrayValueDefault_eq, and_self]

/-- C14: on a key that holds an array with an element that is not a string,
`ArrayValueDefault` panics on the element's type assertion, whatever the
default: it returns no value and no error, although `ArrayValue` on the same key
succeeds with the stored array. -/
theorem ArrayValueDefault_panics_on_non_string (endpoint : ShieldEndpoint) (key : String)
    (a : List Value) (d : List String)
    (h : ShieldEndpoint.lookup endpoint key = some (Value.arr a))
    (hn : ∃ v ∈ a, ∀ s, v ≠ Value.str s) :
    ShieldEndpoint.ArrayValueDefault endpoint key d = Outcome.panic Panic.interfaceConversion
    ∧ (∀ out : List String, ShieldEndpoint.ArrayValueDefault endpoint key d ≠ Outcome.ok out)
    ∧ (∀ e : Error, ShieldEndpoint.ArrayValueDefault endpoint key d ≠ Outcome.error e)
    ∧ ShieldEndpoint.ArrayValue endpoint key = Outcome.ok a := by
  have ha : ShieldEndpoint.ArrayValue endpoint key = Outcome.ok a := ArrayValue_present h
  have hp : ShieldEndpoint.ArrayValueDefault endpoint key d
      = Outcome.panic Panic.interfaceConversion := by
    simp [ShieldEndpoint.ArrayValueDefault, ha, coerceLoop_of_non_string a hn []]
  refine ⟨hp, ?_, ?_, ha⟩
  · intro out
    rw [hp]
    exact fun hc => Outcome.noConfusion hc
  · intro e
    rw [hp]
    exact fun hc => Outcome.noConfusion hc

/-- Witness of C14: the array `["a", 3]` holds the number `3`; `ArrayValue`
returns the array and `ArrayValueDefault` panics. -/
theorem ArrayValueDefault_panics_on_non_string_witness :
    ShieldEndpoint.lookup [("tags", Value.arr [Value.str "a", Value.num Float64.three])] "tags"
      = some (Value.arr [Value.str "a", Value.num Float64.three])
    ∧ ShieldEndpoint.ArrayValueDefault
        [("tags", Value.arr [Value.str "a", Value.num Float64.three])] "tags" ["z"]
      = Outcome.panic Panic.interfaceConversion
    ∧ ShieldEndpoint.ArrayValue
        [("tags", Value.arr [Value.str "a", Value.num Float64.three])] "tags"
      = Outcome.ok [Value.str "a", Value.num Float64.three] :=
  have h := ArrayValueDefault_panics_on_non_string
    [("tags", Value.arr [Value.str "a", Value.num Float64.three])] "tags"
    [Value.str "a", Value.num Float64.three] ["z"] rfl
    ⟨Value.num Float64.three, by simp, fun _ hc => Value.noConfusion hc⟩
  ⟨rfl, h.1, h.2.2.2⟩

/-- C15: when the value stored under `key`, if any, is not null, the five
accessors and the three scalar default variants do not panic: each returns a
value, or the missing-key error of `key`, or the type mismatch error of `key`
with the accessor's tag. -/
theorem accessors_do_not_abort (endpoint : ShieldEndpoint) (key : String)
    (ds : String) (df : Float64) (db : Bool)
    (h : ShieldEndpoint.lookup endpoint key ≠ some Value.null) :
    Outcome.Classified key "string" (ShieldEndpoint.StringValue endpoint key)
    ∧ Outcome.Classified key "numeric" (ShieldEndpoint.FloatValue endpoint key)
    ∧ Outcome.Classified key "boolean" (ShieldEndpoint.BooleanValue endpoint key)
    ∧ Outcome.Classified key "array" (ShieldEndpoint.ArrayValue endpoint key)
    ∧ Outcome.Classified key "map" (ShieldEndpoint.MapValue endpoint key)
    ∧ Outcome.Classified key "string" (ShieldEndpoint.StringValueDefault endpoint key ds)
    ∧ Outcome.Classified key "numeric" (ShieldEndpoint.FloatValueDefault endpoint key df)
    ∧ Outcome.Classified key "boolean" (ShieldEndpoint.BooleanValueDefault endpoint key db)
    ∧ (∀ p : Panic,
        ShieldEndpoint.StringValue endpoint key ≠ Outcome.panic p
        ∧ ShieldEndpoint.FloatValue endpoint key ≠ Outcome.panic p
        ∧ ShieldEndpoint.BooleanValue endpoint key ≠ Outcome.panic p
        ∧ ShieldEndpoint.ArrayValue endpoint key ≠ Outcome.panic p
        ∧ ShieldEndpoint.MapValue endpoint key ≠ Outcome.panic p
        ∧ ShieldEndpoint.StringValueDefault endpoint key ds ≠ Outcome.panic p
        ∧ ShieldEndpoint.FloatValueDefault endpoint key df ≠ Outcome.panic p
        ∧ ShieldEndpoint.BooleanValueDefault endpoint key db ≠ Outcome.panic p) := by
  cases hl : ShieldEndpoint.lookup endpoint key with
  | none =>
    simp [ShieldEndpoint.StringValueDefault, ShieldEndpoint.FloatValueDefault,
      ShieldEndpoint.BooleanValueDefault, StringValue_absent hl, FloatValue_absent hl,
      BooleanValue_absent hl, ArrayValue_absent hl, MapValue_absent hl,
      Error.isMissingRequiredData, Outcome.Classified]
  | some v =>
    cases v with
    | null => exact absurd hl h
    | bool b =>
      simp [ShieldEndpoint.StringValueDefault, ShieldEndpoint.FloatValueDefault,
        ShieldEndpoint.BooleanValueDefault, StringValue_present hl, FloatValue_present hl,
        BooleanValue_present hl, ArrayValue_present hl, MapValue_present hl,
        Error.isMissingRequiredData, Outcome.Classified]
    | num f =>
      simp [ShieldEndpoint.StringValueDefault, ShieldEndpoint.FloatValueDefault,
        ShieldEndpoint.BooleanValueDefault, StringValue_present hl, FloatValue_present hl,
        BooleanValue_present hl, ArrayValue_present hl, MapValue_present hl,
        Error.isMissingRequiredData, Outcome.Classified]
    | str s =>
      simp [ShieldEndpoint.StringValueDefault, ShieldEndpoint.FloatValueDefault,
        ShieldEndpoint.BooleanValueDefault, StringValue_present hl, FloatValue_present hl,
        BooleanValue_present hl, ArrayValue_present hl, MapValue_present hl,
        Error.isMissingRequiredData, Outcome.Classified]
    | arr a =>
      simp [ShieldEndpoint.StringValueDefault, ShieldEndpoint.FloatValueDefault,
        ShieldEndpoint.BooleanValueDefault, StringValue_present hl, FloatValue_present hl,
        BooleanValue_present hl, ArrayValue_present hl, MapValue_present hl,
        Error.isMissingRequiredData, Outcome.Classified]
    | obj m =>
      simp [ShieldEndpoint.StringValueDefault, ShieldEndpoint.FloatValueDefault,
        ShieldEndpoint.BooleanValueDefault, StringValue_present hl, FloatValue_present hl,
        BooleanValue_present hl, ArrayValue_present hl, MapValue_present hl,
        Error.isMissingRequiredData, Outcome.Classified]

/-- Witness of C15: `count` holds the number `3` in the store with
`"count": 3`, not null, and none of the eight calls on it panics. -/
theorem accessors_do_not_abort_witness :
    ShieldEndpoint.lookup countStore "count" ≠ some Value.null
    ∧ Outcome.Classified "count" "string" (ShieldEndpoint.StringValue countStore "count")
    ∧ Outcome.Classified "count" "numeric"
        (ShieldEndpoint.FloatValueDefault countStore "count" Float64.zero)
    ∧ ShieldEndpoint.MapValue countStore "count" ≠ Outcome.panic Panic.nilDereference :=
  have hl : ShieldEndpoint.lookup countStore "count" ≠ some Value.null :=
    fun hc => Value.noConfusion (Option.some.inj hc)
  have h := accessors_do_not_abort countStore "count" "x" Float64.zero true hl
  ⟨hl, h.1, h.2.2.2.2.2.2.1, (h.2.2.2.2.2.2.2.2 Panic.nilDereference).2.2.2.2.1⟩

/-- C16: at most one of the five accessors succeeds on a key; on an absent key
none succeeds; on a key present with a value that is not null exactly one
succeeds and each accessor that does not succeed fails with the type mismatch
error of the key with its tag. -/
theorem at_most_one_accessor_succeeds (endpoint : ShieldEndpoint) (key : String) :
    (successes endpoint key).count true ≤ 1
    ∧ (ShieldEndpoint.lookup endpoint key = none → (successes endpoint key).count true = 0)
    ∧ (∀ v : Value, ShieldEndpoint.lookup endpoint key = some v → v ≠ Value.null →
        (successes endpoint key).count true = 1
        ∧ (Outcome.isOk (ShieldEndpoint.StringValue endpoint key) = false →
            ShieldEndpoint.StringValue endpoint key
              = Outcome.error (Error.EndpointDataTypeMismatchError key "string"))
        ∧ (Outcome.isOk (ShieldEndpoint.FloatValue endpoint key) = false →
            ShieldEndpoint.FloatValue endpoint key
              = Outcome.error (Error.EndpointDataTypeMismatchError key "numeric"))
        ∧ (Outcome.isOk (ShieldEndpoint.BooleanValue endpoint key) = false →
            ShieldEndpoint.BooleanValue endpoint key
              = Outcome.error (Error.EndpointDataTypeMismatchError key "boolean"))
        ∧ (Outcome.isOk (ShieldEndpoint.ArrayValue endpoint key) = false →
            ShieldEndpoint.ArrayValue endpoint key
              = Outcome.error (Error.EndpointDataTypeMismatchError key "array"))
        ∧ (Outcome.isOk (ShieldEndpoint.MapValue endpoint key) = false →
            ShieldEndpoint.MapValue endpoint key
              = Outcome.error (Error.EndpointDataTypeMismatchError key "map"))) := by
  cases hl : ShieldEndpoint.lookup endpoint key with
  | none =>
    simp [successes, StringValue_absent hl, FloatValue_absent hl, BooleanValue_absent hl,
      ArrayValue_absent hl, MapValue_absent hl, Outcome.isOk]
  | some v =>
    cases v <;>
      simp [successes, StringValue_present hl, FloatValue_present hl, BooleanValue_present hl,
        ArrayValue_present hl, MapValue_present hl, Outcome.isOk]

/-- Witness of C16: in the store with `"name": "x"` the key `name` holds a
string: `StringValue` alone succeeds and `FloatValue` fails with a type
mismatch; on the absent key `missing` no accessor succeeds. -/
theorem at_most_one_accessor_succeeds_witness :
    ((successes nameStore "name").count true = 1
      ∧ ShieldEndpoint.FloatValue nameStore "name"
          = Outcome.error (Error.EndpointDataTypeMismatchError "name" "numeric"))
    ∧ (successes nameStore "missing").count true = 0 :=
  ⟨⟨((at_most_one_accessor_succeeds nameStore "name").2.2 (Value.str "x") rfl
        (fun hc => Value.noConfusion hc)).1,
    ((at_most_one_accessor_succeeds nameStore "name").2.2 (Value.str "x") rfl
        (fun hc => Value.noConfusion hc)).2.2.1 rfl⟩,
   (at_most_one_accessor_succeeds nameStore "missing").2.1 rfl⟩

/-- C17: on a key that is present in the store, the outcome of each default
variant is the same for any two defaults; a key present with the empty array
makes `ArrayValueDefault` return the empty sequence whatever the default. -/
theorem default_ignored_on_present_key (endpoint : ShieldEndpoint) (key : String) (v : Value)
    (h : ShieldEndpoint.lookup endpoint key = some v) :
    (∀ d1 d2 : String, ShieldEndpoint.StringValueDefault endpoint key d1
        = ShieldEndpoint.StringValueDefault endpoint key d2)
    ∧ (∀ d1 d2 : Float64, ShieldEndpoint.FloatValueDefault endpoint key d1
        = ShieldEndpoint.FloatValueDefault endpoint key d2)
    ∧ (∀ d1 d2 : Bool, ShieldEndpoint.BooleanValueDefault endpoint key d1
        = ShieldEndpoint.BooleanValueDefault endpoint key d2)
    ∧ (∀ d1 d2 : List String, ShieldEndpoint.ArrayValueDefault endpoint key d1
        = ShieldEndpoint.ArrayValueDefault endpoint key d2)
    ∧ (v = Value.arr [] →
        ∀ d : List String, ShieldEndpoint.ArrayValueDefault endpoint key d = Outcome.ok []) := by
  refine ⟨?_, ?_, ?_, ?_, ?_⟩
  · intro d1 d2
    cases v <;>
      simp [ShieldEndpoint.StringValueDefault, StringValue_present h,
        Error.isMissingRequiredData]
  · intro d1 d2
    cases v <;>
      simp [ShieldEndpoint.FloatValueDefault, FloatValue_present h,
        Error.isMissingRequiredData]
  · intro d1 d2
    cases v <;>
      simp [ShieldEndpoint.BooleanValueDefault, BooleanValue_present h,
        Error.isMissingRequiredData]
  · intro d1 d2
    cases v <;>
      simp [ShieldEndpoint.ArrayValueDefault, ArrayValue_present h,
        Error.isMissingRequiredData]
  · intro hv d
    subst hv
    simp [ShieldEndpoint.ArrayValueDefault, ArrayValue_present h, coerceLoop]

/-- Witness of C17: in the store where `tags` holds the empty array,
`ArrayValueDefault` returns the empty sequence for the default `["z"]` as for
the empty default, and `StringValueDefault` fails alike for two defaults. -/
theorem default_ignored_on_present_key_witness :
    ShieldEndpoint.lookup [("tags", Value.arr [])] "tags" = some (Value.arr [])
    ∧ ShieldEndpoint.ArrayValueDefault [("tags", Value.arr [])] "tags" ["z"] = Outcome.ok []
    ∧ ShieldEndpoint.ArrayValueDefault [("tags", Value.arr [])] "tags" ["z"]
        = ShieldEndpoint.ArrayValueDefault [("tags", Value.arr [])] "tags" []
    ∧ ShieldEndpoint.StringValueDefault [("tags", Value.arr [])] "tags" "x"
        = ShieldEndpoint.StringValueDefault [("tags", Value.arr [])] "tags" "y" :=
  have h := default_ignored_on_present_key [("tags", Value.arr [])] "tags" (Value.arr []) rfl
  ⟨rfl, h.2.2.2.2 rfl ["z"], h.2.2.2.1 ["z"] [], h.1 "x" "y"⟩

end Plugin
